import Mathlib

/-!
# Verification of the Chatterbox TTS WebSocket server protocol logic

Shallow embedding of `src/websocket_server.py` (class `ChatterboxWebSocketServer`):
request validation (`_validate_config`, the text checks of `process_tts_request`),
the base64 transcoding used by `_encode_audio` / `_decode_audio`, the
request-lifecycle engine `process_tts_request` (with its temporary
reference-audio artifact), and the per-connection message loop `handle_client`.

Python floats are embedded as `ℚ`: every numeric constant of the source
(0.25, 0.05, 2.0, …) is a dyadic rational represented exactly by IEEE doubles,
so Python's comparisons on these values coincide with rational comparisons.
Python strings are Lean `String`s (both are sequences of code points).
-/

/-- Python `str()` / `repr` of a list of plain strings, as produced by
`f"... {list(SUPPORTED_LANGUAGES.keys())}"` in `_validate_config` (line 110). -/
def pyListRepr (xs : List String) : String :=
  "[" ++ String.intercalate ", " (xs.map fun s => "'" ++ s ++ "'") ++ "]"

/-- Python `str.lower()` (its ASCII fragment, which covers the language
identifiers): lower-case each character. -/
def pyLower (s : String) : String := ⟨s.toList.map Char.toLower⟩

/-- Modelled from the spec: the key list of `SUPPORTED_LANGUAGES`, the
supported-language-id → display-name mapping imported from
`chatterbox.mtl_tts` — external to the sources under verification.  The spec
fixes only that the set is fixed and non-empty and that the default language
`"es"` belongs to it; theorems that depend on the actual contents of the set
are stated for an arbitrary key list instead. -/
def SUPPORTED_LANGUAGES : List String := ["es"]

/-- The client-supplied `config` mapping of a `tts_request` (a JSON object);
`none` embeds `key not in config`.  Numeric values are rationals (see the
header note on floats); the embedding covers well-typed configs (the numeric
keys bound to numbers, `language_id` bound to a string). -/
structure ClientConfig where
  language_id : Option String := none
  exaggeration : Option ℚ := none
  temperature : Option ℚ := none
  cfg_weight : Option ℚ := none
  repetition_penalty : Option ℚ := none
  min_p : Option ℚ := none
  top_p : Option ℚ := none
deriving DecidableEq, Repr

/-- The fully-populated configuration dict returned by `_validate_config`. -/
structure ValidatedConfig where
  language_id : String
  exaggeration : ℚ
  temperature : ℚ
  cfg_weight : ℚ
  repetition_penalty : ℚ
  min_p : ℚ
  top_p : ℚ
deriving DecidableEq, Repr

/-- One iteration of the `for key, default_value in defaults.items()` loop of
`_validate_config` (lines 114–128) for a numeric key: absent keys keep the
default, present keys are range-checked inclusively (`lo <= v <= hi`) and then
stored. -/
def checkField (v? : Option ℚ) (lo hi : ℚ) (msg : String) (dflt : ℚ) :
    Except String ℚ :=
  match v? with
  | none => .ok dflt
  | some v => if lo ≤ v ∧ v ≤ hi then .ok v else .error msg

/-- Embedding of `ChatterboxWebSocketServer._validate_config` (lines 94–130).
`supported` stands for the imported `SUPPORTED_LANGUAGES` mapping's keys.

Lines 106–111 lower-case a supplied `language_id` and require membership in
the supported set; lines 113–128 then walk the `defaults` dict in insertion
order (`language_id` first, then the six numeric fields).  The `language_id`
iteration of that loop re-assigns the client's *original* string over the
lower-cased one (`defaults[key] = config[key]`), which this embedding
reproduces. -/
def _validate_config (supported : List String) (c : ClientConfig) :
    Except String ValidatedConfig := do
  let lang ← match c.language_id with
    | none => Except.ok "es"
    | some l =>
        if pyLower l ∈ supported then Except.ok (pyLower l)
        else Except.error ("Unsupported language: " ++ pyLower l ++
          ". Supported languages: " ++ pyListRepr supported)
  let langFinal := match c.language_id with
    | none => lang
    | some l => l
  let ex ← checkField c.exaggeration (1/4) 2
    "Exaggeration must be between 0.25 and 2.0" (1/2)
  let te ← checkField c.temperature (1/20) 5
    "Temperature must be between 0.05 and 5.0" (4/5)
  let cw ← checkField c.cfg_weight 0 1
    "CFG weight must be between 0.0 and 1.0" (1/2)
  let rp ← checkField c.repetition_penalty 1 3
    "Repetition penalty must be between 1.0 and 3.0" 2
  let mp ← checkField c.min_p 0 1
    "Min_p must be between 0.0 and 1.0" (1/20)
  let tp ← checkField c.top_p 0 1
    "Top_p must be between 0.0 and 1.0" 1
  return { language_id := langFinal, exaggeration := ex, temperature := te,
           cfg_weight := cw, repetition_penalty := rp, min_p := mp, top_p := tp }

/-- The characters stripped by Python's `str.strip()` (ASCII whitespace; the
texts the claims quantify over are covered by the ASCII set). -/
def pyIsSpace (ch : Char) : Bool :=
  ch = ' ' ∨ ch = '\t' ∨ ch = '\n' ∨ ch = '\r' ∨ ch = '\x0b' ∨ ch = '\x0c'

/-- Python `text.strip()`. -/
def pyStrip (s : String) : String :=
  ⟨((s.toList.dropWhile pyIsSpace).reverse.dropWhile pyIsSpace).reverse⟩

/-- The text checks of `process_tts_request` (lines 136–146): a missing field
raises, an empty or whitespace-only text raises, a text longer than 500
characters is truncated to its first 500 characters with a warning log.  The
returned `Bool` records whether the truncation warning was logged. -/
def validateText (t? : Option String) : Except String (String × Bool) :=
  match t? with
  | none => .error "Missing required field: text"
  | some t =>
      if t.isEmpty ∨ (pyStrip t).isEmpty then .error "Text cannot be empty"
      else if 500 < t.length then .ok (⟨t.toList.take 500⟩, true)
      else .ok (t, false)

/-- Outcome of calling a Python function: a normal return or an uncaught
exception escaping it (carrying `str(e)`). -/
inductive PyResult (α : Type) where
  | ok (a : α)
  | exn (msg : String)
deriving DecidableEq, Repr

/-- The `data` object of a `tts_response` message (lines 180–189 and 199–206).
A success carries `audio`, `sample_rate` and `language`; an error fixes
`audio = null` and omits the other two. -/
structure TTSResponseData where
  audio : Option String
  status : String
  message : String
  sample_rate : Option ℕ
  language : Option String
deriving DecidableEq, Repr

/-- The error shape built by the `except` handler of `process_tts_request`
(lines 199–206): `{audio: null, status: "error", message}`. -/
def errorData (msg : String) : TTSResponseData :=
  { audio := none, status := "error", message := msg,
    sample_rate := none, language := none }

/-- The `data` object of a `tts_request` (well-typed fields; `none` embeds a
missing key). -/
structure RequestData where
  text : Option String := none
  reference_audio : Option String := none
  config : ClientConfig := {}
deriving DecidableEq, Repr

deriving instance DecidableEq for Except

/-- The environment a single `process_tts_request` call runs against: the
outcomes of `base64.b64decode` inside `_decode_audio`, of
`self.model.generate`, of `_encode_audio`, and of `os.unlink` on the
temporary reference-audio artifact, plus `self.model.sr`.  A failing
`os.unlink` raises an `OSError` whose text is `unlinkErrMsg`; both unlink
attempts of one request hit the same file system, so one flag covers them. -/
structure TTSWorld where
  decodeOk : Bool := true
  modelResult : Except String Unit := .ok ()
  encodeResult : Except String String := .ok ""
  unlinkOk : Bool := true
  unlinkErrMsg : String := "unlink failed"
  sampleRate : ℕ := 0
deriving DecidableEq, Repr

/-- The `try` block of `process_tts_request` (lines 134–189).  Success yields
the response together with whether the reference artifact still exists
(always `false` there: line 177 removed it, or none was created).  An
exception yields `(str(e), pathSet, fileExists)` where `pathSet` embeds
`"reference_audio_path" in locals() and reference_audio_path` (line 196) and
`fileExists` whether the artifact is on disk at the moment the exception is
raised. -/
def tryBlock (supported : List String) (w : TTSWorld) (d : RequestData) :
    Except (String × Bool × Bool) (TTSResponseData × Bool) := do
  -- lines 136–146: text checks (raised before reference_audio_path exists)
  let (_, _) ← (validateText d.text).mapError (fun m => (m, false, false))
  -- lines 148–150: config validation (also before reference_audio_path exists)
  let config ← (_validate_config supported d.config).mapError
    (fun m => (m, false, false))
  -- lines 152–155: decode the reference audio to a temporary artifact.
  -- On decode failure `_decode_audio` raises ValueError("Invalid base64 audio
  -- data") before any file is created; reference_audio_path is still None.
  let hasRef : Bool := match d.reference_audio with
    | some s => !s.isEmpty
    | none => false
  if hasRef ∧ w.decodeOk = false then
    throw ("Invalid base64 audio data", false, false)
  -- from here: the artifact exists iff hasRef, and reference_audio_path is
  -- set (truthy) iff hasRef
  -- lines 160–171: the model call
  match w.modelResult with
  | .error m => throw (m, hasRef, hasRef)
  | .ok () => pure ()
  -- line 174: _encode_audio (its own temporary file is cleaned up internally
  -- with a tolerated warning; it is not the reference artifact)
  let audio ← match w.encodeResult with
    | .error m => throw (m, hasRef, hasRef)
    | .ok s => pure s
  -- lines 176–178: remove the reference artifact; a failing unlink raises
  if hasRef ∧ w.unlinkOk = false then
    throw (w.unlinkErrMsg, true, true)
  -- lines 180–189: the success response
  return ({ audio := some audio, status := "success",
            message := "Generated audio for '" ++ config.language_id ++ "' text",
            sample_rate := some w.sampleRate, language := some config.language_id },
          false)

/-- The `except Exception` handler of `process_tts_request` (lines 191–206):
it re-attempts the artifact removal (line 196–197, unguarded — a failing
`os.unlink` escapes the handler) and returns the error-shaped response. -/
def exceptHandler (w : TTSWorld) (msg : String) (pathSet fileExists : Bool) :
    PyResult TTSResponseData × Bool :=
  if pathSet ∧ fileExists then
    if w.unlinkOk then (.ok (errorData msg), false)
    else (.exn w.unlinkErrMsg, true)
  else (.ok (errorData msg), fileExists)

/-- Embedding of `ChatterboxWebSocketServer.process_tts_request`
(lines 132–206): the `try` block with its handler.  The second component is
whether the temporary reference-audio artifact exists after the call. -/
def process_tts_request (supported : List String) (w : TTSWorld)
    (d : RequestData) : PyResult TTSResponseData × Bool :=
  match tryBlock supported w d with
  | .ok (resp, ex) => (.ok resp, ex)
  | .error (m, pathSet, ex) => exceptHandler w m pathSet ex

/-- The value found under the `"type"` key of a parsed message object:
absent, a JSON string, or some other JSON value (whose Python `str()`
rendering is carried for the `f"Unknown message type: {...}"` format). -/
inductive TypeTag where
  | absent
  | strTag (s : String)
  | otherTag (display : String)
deriving DecidableEq, Repr

/-- `data.get('type', 'unknown')` as rendered into the unknown-type error
(line 249): `'unknown'` when the key is absent, else the value's `str()`. -/
def typeDisplay : TypeTag → String
  | .absent => "unknown"
  | .strTag s => s
  | .otherTag d => d

/-- One frame received from the client, as seen after `json.loads`
(lines 228–229): a frame that is not valid JSON, a frame whose JSON top level
is not an object (`tyName` is the Python type name of the parsed value —
`"int"`, `"str"`, `"list"`, `"float"`, `"bool"` or `"NoneType"`), or an
object with its `"type"` tag and (for `tts_request`) its `"data"` payload,
with the per-request world the pipeline runs against. -/
inductive Incoming where
  | malformed
  | nonDict (tyName : String)
  | envelope (typ : TypeTag) (d : RequestData) (w : TTSWorld)
deriving DecidableEq, Repr

/-- A message sent to the client, mirroring the dicts passed to `json.dumps`
in `handle_client` (the `{"type": ..., "data": ...}` envelopes). -/
inductive OutMsg where
  | serverInfo (message : String) (supported_languages : List String)
      (default_language : String) (device : String)
  | ttsResponse (d : TTSResponseData)
  | pong (message : String)
  | errorMsg (message : String)
deriving DecidableEq, Repr

/-- CPython's `AttributeError` text for `x.get` on a non-dict `x`, as caught
by `except Exception as e` (line 263) and rendered through `str(e)`. -/
def attrErrMsg (tyName : String) : String :=
  "'" ++ tyName ++ "' object has no attribute 'get'"

/-- The body of the `async for` loop of `handle_client` (lines 226–271):
classify one frame and produce the one response written back.  Invalid JSON
is answered at line 254–261; a non-object JSON top level raises
`AttributeError` at `data.get("type")` (line 231), caught by the generic
per-message handler (lines 263–271); a `tts_request` runs the pipeline, and
an exception escaping `process_tts_request` (an uncaught unlink `OSError`)
is likewise caught by the generic handler. -/
def handleMessage (supported : List String) (inc : Incoming) : OutMsg :=
  match inc with
  | .malformed => .errorMsg "Invalid JSON format"
  | .nonDict ty => .errorMsg ("Internal server error: " ++ attrErrMsg ty)
  | .envelope typ d w =>
      if typ = .strTag "tts_request" then
        match process_tts_request supported w d with
        | (.ok resp, _) => .ttsResponse resp
        | (.exn m, _) => .errorMsg ("Internal server error: " ++ m)
      else if typ = .strTag "ping" then .pong "Server is alive"
      else .errorMsg ("Unknown message type: " ++ typeDisplay typ)

/-- Embedding of `ChatterboxWebSocketServer.handle_client` (lines 208–277)
as the trace of messages written to one connection, given the frames the
client sends before disconnecting: the welcome `server_info` (lines 214–224)
is sent unconditionally before the receive loop, and every received frame is
answered by exactly one response.  `device` is `self.device`. -/
def handle_client (supported : List String) (device : String)
    (msgs : List Incoming) : List OutMsg :=
  .serverInfo "Chatterbox TTS WebSocket Server" supported "es" device ::
    msgs.map (handleMessage supported)

/-- The atomic operations of a session task, at the granularity of the
`await` expressions of `handle_client` / `process_tts_request`: everything
between two suspension points executes as one uninterruptible block on the
shared asyncio event loop. -/
inductive AtomicOp where
  | sendServerInfo
  | recvMessage
  | parseJson
  | validateRequest
  | modelGenerate
  | encodeAudio
  | buildResponse
  | sendResponse
deriving DecidableEq, Repr

/-- The operations `handle_client` performs from the completion of
`async for`'s receive to `await websocket.send(response)` for a
`tts_request`, derived from lines 226–234 and 132–206 of the source:
`process_tts_request` contains no `await` that suspends (`model.generate`,
`_encode_audio` and the file operations are ordinary blocking calls, and
`await self.process_tts_request(...)` runs the coroutine inline because it
never suspends), so the whole dispatch — including `self.model.generate` —
is a single suspension-free block. -/
def ttsDispatchOps : List AtomicOp :=
  [.recvMessage, .parseJson, .validateRequest, .modelGenerate, .encodeAudio,
   .buildResponse, .sendResponse]

/-- A session task's decomposition into suspension-delimited segments when it
serves one `tts_request`: the welcome send (line 224), then — after awaiting
the next frame — the uninterrupted dispatch block. -/
def sessionSegments : List (List AtomicOp) :=
  [[.sendServerInfo], ttsDispatchOps]

/-- Remove and return the head segment of task `i` (the empty segment when
the task is finished or the index is not a task). -/
def popSegment (tasks : List (List (List AtomicOp))) (i : ℕ) :
    List AtomicOp × List (List (List AtomicOp)) :=
  match tasks.get? i with
  | some (seg :: rest) => (seg, tasks.set i rest)
  | _ => ([], tasks)

/-- The asyncio event loop as a cooperative scheduler: `sched` names, in
order, the task to resume at each suspension point; the resumed task runs
its entire next segment without interleaving before control returns to the
loop.  The trace records which task performed each operation. -/
def runSchedule (tasks : List (List (List AtomicOp))) :
    List ℕ → List (ℕ × AtomicOp)
  | [] => []
  | i :: sched =>
      let p := popSegment tasks i
      p.1.map (fun op => (i, op)) ++ runSchedule p.2 sched

/-- The standard base64 alphabet used by Python's `base64.b64encode` /
`base64.b64decode`, which `_encode_audio` (line 79) and `_decode_audio`
(line 52) call on the audio bytes. -/
def b64Alphabet : List Char :=
  "ABCDEFGHIJKLMNOPQRSTUVWXYZabcdefghijklmnopqrstuvwxyz0123456789+/".toList

/-- The alphabet character of a 6-bit group. -/
def b64Char (n : ℕ) : Char := b64Alphabet.getD n '='

/-- The 6-bit value of an alphabet character. -/
def b64Val (c : Char) : ℕ := b64Alphabet.indexOf c

/-- `base64.b64encode` on a byte sequence (bytes as naturals below 256), as
used by `_encode_audio`: three bytes become four alphabet characters, a
final group of one or two bytes is padded with `'='`. -/
def b64encode : List ℕ → List Char
  | [] => []
  | [a] => [b64Char (a / 4), b64Char (a % 4 * 16), '=', '=']
  | [a, b] => [b64Char (a / 4), b64Char (a % 4 * 16 + b / 16),
               b64Char (b % 16 * 4), '=']
  | a :: b :: c :: rest =>
      b64Char (a / 4) :: b64Char (a % 4 * 16 + b / 16) ::
      b64Char (b % 16 * 4 + c / 64) :: b64Char (c % 64) :: b64encode rest

/-- `base64.b64decode` on well-formed transport text, as used by
`_decode_audio`: four characters yield three bytes, with `'='` padding
closing the final group. -/
def b64decode : List Char → List ℕ
  | p :: q :: r :: s :: rest =>
      if s = '=' then
        if r = '=' then [b64Val p * 4 + b64Val q / 16]
        else [b64Val p * 4 + b64Val q / 16, b64Val q % 16 * 16 + b64Val r / 4]
      else
        (b64Val p * 4 + b64Val q / 16) ::
        (b64Val q % 16 * 16 + b64Val r / 4) ::
        (b64Val r % 4 * 64 + b64Val s) :: b64decode rest
  | _ => []

theorem b64Val_b64Char : ∀ n, n < 64 → b64Val (b64Char n) = n := by decide

theorem b64Char_ne_pad : ∀ n, n < 64 → b64Char n ≠ '=' := by decide

/-- C8: For every byte sequence (naturals below 256), decoding the
transport text produced by encoding it yields the original bytes unchanged:
`b64decode (b64encode bs) = bs`, the round-trip law of the base64
transcoding used by `_encode_audio` / `_decode_audio`. -/
theorem C8_base64_roundtrip : ∀ bs : List ℕ, (∀ x ∈ bs, x < 256) →
    b64decode (b64encode bs) = bs
  | [], _ => rfl
  | [a], h => by
      have ha : a < 256 := h a (by simp)
      simp only [b64encode, b64decode, if_true]
      rw [b64Val_b64Char _ (by omega), b64Val_b64Char _ (by omega)]
      have e1 : a / 4 * 4 + a % 4 * 16 / 16 = a := by omega
      rw [e1]
  | [a, b], h => by
      have ha : a < 256 := h a (by simp)
      have hb : b < 256 := h b (by simp)
      simp only [b64encode, b64decode, if_true]
      rw [if_neg (b64Char_ne_pad _ (by omega)),
          b64Val_b64Char _ (by omega), b64Val_b64Char _ (by omega),
          b64Val_b64Char _ (by omega)]
      have e1 : a / 4 * 4 + (a % 4 * 16 + b / 16) / 16 = a := by omega
      have e2 : (a % 4 * 16 + b / 16) % 16 * 16 + b % 16 * 4 / 4 = b := by omega
      rw [e1, e2]
  | a :: b :: c :: rest, h => by
      have ha : a < 256 := h a (by simp)
      have hb : b < 256 := h b (by simp)
      have hc : c < 256 := h c (by simp)
      have ih := C8_base64_roundtrip rest (fun x hx => h x (by simp [hx]))
      simp only [b64encode, b64decode]
      rw [if_neg (b64Char_ne_pad _ (by omega)),
          b64Val_b64Char _ (by omega), b64Val_b64Char _ (by omega),
          b64Val_b64Char _ (by omega), b64Val_b64Char _ (by omega), ih]
      have e1 : a / 4 * 4 + (a % 4 * 16 + b / 16) / 16 = a := by omega
      have e2 : (a % 4 * 16 + b / 16) % 16 * 16 + (b % 16 * 4 + c / 64) / 4 = b := by
        omega
      have e3 : (b % 16 * 4 + c / 64) % 4 * 64 + c % 64 = c := by omega
      rw [e1, e2, e3]

/-- Witness for C8: the round-trip law evaluated at a concrete byte
sequence. -/
theorem C8_base64_roundtrip_witness :
    b64decode (b64encode [0, 77, 255, 1, 2]) = [0, 77, 255, 1, 2] :=
  C8_base64_roundtrip [0, 77, 255, 1, 2] (by decide)

/-- C4: A text that is empty or whitespace-only after trimming is
rejected with the empty-text error; a (non-degenerate) text longer than 500
characters is not rejected but truncated to exactly its first 500 characters
— of length exactly 500 — with the truncation logged. -/
theorem C4_text_empty_and_truncation (t : String) :
    ((pyStrip t).isEmpty = true →
      validateText (some t) = .error "Text cannot be empty")
    ∧ ((pyStrip t).isEmpty = false → 500 < t.length →
        validateText (some t) = .ok (⟨t.toList.take 500⟩, true)
          ∧ (t.toList.take 500).length = 500) := by
  constructor
  · intro hs
    simp only [validateText]
    rw [if_pos (Or.inr hs)]
  · intro hs hlong
    have hne : ¬ (t.isEmpty = true ∨ (pyStrip t).isEmpty = true) := by
      rintro (h | h)
      · rw [(String.isEmpty_iff t).mp h] at hs
        exact absurd hs (by decide)
      · rw [h] at hs; exact Bool.true_eq_false.mp hs
    constructor
    · simp only [validateText]
      rw [if_neg hne, if_pos hlong]
    · have : t.length = t.toList.length := rfl
      simp only [List.length_take]
      omega

set_option maxRecDepth 10000 in
/-- Witness for C4: a 501-character text is accepted and truncated to its
first 500 characters. -/
theorem C4_text_empty_and_truncation_witness :
    validateText (some ⟨List.replicate 501 'a'⟩) =
      .ok (⟨(String.mk (List.replicate 501 'a')).toList.take 500⟩, true)
    ∧ ((String.mk (List.replicate 501 'a')).toList.take 500).length = 500 :=
  (C4_text_empty_and_truncation ⟨List.replicate 501 'a'⟩).2 (by decide) (by decide)

theorem ebind_ok {ε α β : Type} (a : α) (f : α → Except ε β) :
    (Except.ok a >>= f) = f a := rfl

theorem ebind_err {ε α β : Type} (e : ε) (f : α → Except ε β) :
    ((Except.error e : Except ε α) >>= f) = .error e := rfl

theorem checkField_ok_of {v? : Option ℚ} {lo hi : ℚ} (msg : String) (d : ℚ)
    (h : ∀ v, v? = some v → lo ≤ v ∧ v ≤ hi) :
    checkField v? lo hi msg d = .ok (v?.getD d) := by
  cases v? with
  | none => rfl
  | some v => simp [checkField, h v rfl]

theorem checkField_some_err {v lo hi : ℚ} (msg : String) (d : ℚ)
    (h : ¬ (lo ≤ v ∧ v ≤ hi)) :
    checkField (some v) lo hi msg d = .error msg := by
  simp only [checkField]
  rw [if_neg h]

/-- C3: (amended) Every field absent from the client config defaults
(language `"es"`, exaggeration 0.5, temperature 0.8, cfg_weight 0.5,
repetition_penalty 2.0, min_p 0.05, top_p 1.0), every supplied in-range value
— bounds included — is kept, and an out-of-range value is rejected with an
error naming the field and its inclusive bounds (the message does not contain
the offending value; fields are checked in the dict order of `defaults`). -/
theorem C3_config_defaults_and_ranges (supported : List String) (c : ClientConfig) :
    ((∀ l, c.language_id = some l → pyLower l ∈ supported) →
     (∀ v, c.exaggeration = some v → 1/4 ≤ v ∧ v ≤ 2) →
     (∀ v, c.temperature = some v → 1/20 ≤ v ∧ v ≤ 5) →
     (∀ v, c.cfg_weight = some v → 0 ≤ v ∧ v ≤ 1) →
     (∀ v, c.repetition_penalty = some v → 1 ≤ v ∧ v ≤ 3) →
     (∀ v, c.min_p = some v → 0 ≤ v ∧ v ≤ 1) →
     (∀ v, c.top_p = some v → 0 ≤ v ∧ v ≤ 1) →
     _validate_config supported c = .ok
       { language_id := c.language_id.getD "es",
         exaggeration := c.exaggeration.getD (1/2),
         temperature := c.temperature.getD (4/5),
         cfg_weight := c.cfg_weight.getD (1/2),
         repetition_penalty := c.repetition_penalty.getD 2,
         min_p := c.min_p.getD (1/20),
         top_p := c.top_p.getD 1 })
  ∧ ((∀ l, c.language_id = some l → pyLower l ∈ supported) →
     ∀ v, c.exaggeration = some v → ¬ (1/4 ≤ v ∧ v ≤ 2) →
     _validate_config supported c = .error "Exaggeration must be between 0.25 and 2.0")
  ∧ ((∀ l, c.language_id = some l → pyLower l ∈ supported) →
     (∀ v, c.exaggeration = some v → 1/4 ≤ v ∧ v ≤ 2) →
     ∀ v, c.temperature = some v → ¬ (1/20 ≤ v ∧ v ≤ 5) →
     _validate_config supported c = .error "Temperature must be between 0.05 and 5.0")
  ∧ ((∀ l, c.language_id = some l → pyLower l ∈ supported) →
     (∀ v, c.exaggeration = some v → 1/4 ≤ v ∧ v ≤ 2) →
     (∀ v, c.temperature = some v → 1/20 ≤ v ∧ v ≤ 5) →
     ∀ v, c.cfg_weight = some v → ¬ (0 ≤ v ∧ v ≤ 1) →
     _validate_config supported c = .error "CFG weight must be between 0.0 and 1.0")
  ∧ ((∀ l, c.language_id = some l → pyLower l ∈ supported) →
     (∀ v, c.exaggeration = some v → 1/4 ≤ v ∧ v ≤ 2) →
     (∀ v, c.temperature = some v → 1/20 ≤ v ∧ v ≤ 5) →
     (∀ v, c.cfg_weight = some v → 0 ≤ v ∧ v ≤ 1) →
     ∀ v, c.repetition_penalty = some v → ¬ (1 ≤ v ∧ v ≤ 3) →
     _validate_config supported c =
       .error "Repetition penalty must be between 1.0 and 3.0")
  ∧ ((∀ l, c.language_id = some l → pyLower l ∈ supported) →
     (∀ v, c.exaggeration = some v → 1/4 ≤ v ∧ v ≤ 2) →
     (∀ v, c.temperature = some v → 1/20 ≤ v ∧ v ≤ 5) →
     (∀ v, c.cfg_weight = some v → 0 ≤ v ∧ v ≤ 1) →
     (∀ v, c.repetition_penalty = some v → 1 ≤ v ∧ v ≤ 3) →
     ∀ v, c.min_p = some v → ¬ (0 ≤ v ∧ v ≤ 1) →
     _validate_config supported c = .error "Min_p must be between 0.0 and 1.0")
  ∧ ((∀ l, c.language_id = some l → pyLower l ∈ supported) →
     (∀ v, c.exaggeration = some v → 1/4 ≤ v ∧ v ≤ 2) →
     (∀ v, c.temperature = some v → 1/20 ≤ v ∧ v ≤ 5) →
     (∀ v, c.cfg_weight = some v → 0 ≤ v ∧ v ≤ 1) →
     (∀ v, c.repetition_penalty = some v → 1 ≤ v ∧ v ≤ 3) →
     (∀ v, c.min_p = some v → 0 ≤ v ∧ v ≤ 1) →
     ∀ v, c.top_p = some v → ¬ (0 ≤ v ∧ v ≤ 1) →
     _validate_config supported c = .error "Top_p must be between 0.0 and 1.0") := by
  refine ⟨?_, ?_, ?_, ?_, ?_, ?_, ?_⟩
  · intro hL h1 h2 h3 h4 h5 h6
    cases hl : c.language_id with
    | none =>
        simp only [_validate_config, hl, ebind_ok,
          checkField_ok_of _ _ h1, checkField_ok_of _ _ h2,
          checkField_ok_of _ _ h3, checkField_ok_of _ _ h4,
          checkField_ok_of _ _ h5, checkField_ok_of _ _ h6]
        rfl
    | some l =>
        simp only [_validate_config, hl]
        rw [if_pos (hL l hl)]
        simp only [ebind_ok,
          checkField_ok_of _ _ h1, checkField_ok_of _ _ h2,
          checkField_ok_of _ _ h3, checkField_ok_of _ _ h4,
          checkField_ok_of _ _ h5, checkField_ok_of _ _ h6]
        rfl
  · intro hL v hv hrange
    cases hl : c.language_id with
    | none =>
        simp only [_validate_config, hl, ebind_ok, hv,
          checkField_some_err _ _ hrange, ebind_err]
    | some l =>
        simp only [_validate_config, hl]
        rw [if_pos (hL l hl)]
        simp only [ebind_ok, hv, checkField_some_err _ _ hrange, ebind_err]
  · intro hL h1 v hv hrange
    cases hl : c.language_id with
    | none =>
        simp only [_validate_config, hl, ebind_ok, checkField_ok_of _ _ h1,
          hv, checkField_some_err _ _ hrange, ebind_err]
    | some l =>
        simp only [_validate_config, hl]
        rw [if_pos (hL l hl)]
        simp only [ebind_ok, checkField_ok_of _ _ h1, hv,
          checkField_some_err _ _ hrange, ebind_err]
  · intro hL h1 h2 v hv hrange
    cases hl : c.language_id with
    | none =>
        simp only [_validate_config, hl, ebind_ok, checkField_ok_of _ _ h1,
          checkField_ok_of _ _ h2, hv, checkField_some_err _ _ hrange, ebind_err]
    | some l =>
        simp only [_validate_config, hl]
        rw [if_pos (hL l hl)]
        simp only [ebind_ok, checkField_ok_of _ _ h1, checkField_ok_of _ _ h2,
          hv, checkField_some_err _ _ hrange, ebind_err]
  · intro hL h1 h2 h3 v hv hrange
    cases hl : c.language_id with
    | none =>
        simp only [_validate_config, hl, ebind_ok, checkField_ok_of _ _ h1,
          checkField_ok_of _ _ h2, checkField_ok_of _ _ h3, hv,
          checkField_some_err _ _ hrange, ebind_err]
    | some l =>
        simp only [_validate_config, hl]
        rw [if_pos (hL l hl)]
        simp only [ebind_ok, checkField_ok_of _ _ h1, checkField_ok_of _ _ h2,
          checkField_ok_of _ _ h3, hv, checkField_some_err _ _ hrange, ebind_err]
  · intro hL h1 h2 h3 h4 v hv hrange
    cases hl : c.language_id with
    | none =>
        simp only [_validate_config, hl, ebind_ok, checkField_ok_of _ _ h1,
          checkField_ok_of _ _ h2, checkField_ok_of _ _ h3,
          checkField_ok_of _ _ h4, hv, checkField_some_err _ _ hrange, ebind_err]
    | some l =>
        simp only [_validate_config, hl]
        rw [if_pos (hL l hl)]
        simp only [ebind_ok, checkField_ok_of _ _ h1, checkField_ok_of _ _ h2,
          checkField_ok_of _ _ h3, checkField_ok_of _ _ h4, hv,
          checkField_some_err _ _ hrange, ebind_err]
  · intro hL h1 h2 h3 h4 h5 v hv hrange
    cases hl : c.language_id with
    | none =>
        simp only [_validate_config, hl, ebind_ok, checkField_ok_of _ _ h1,
          checkField_ok_of _ _ h2, checkField_ok_of _ _ h3,
          checkField_ok_of _ _ h4, checkField_ok_of _ _ h5, hv,
          checkField_some_err _ _ hrange, ebind_err]
    | some l =>
        simp only [_validate_config, hl]
        rw [if_pos (hL l hl)]
        simp only [ebind_ok, checkField_ok_of _ _ h1, checkField_ok_of _ _ h2,
          checkField_ok_of _ _ h3, checkField_ok_of _ _ h4,
          checkField_ok_of _ _ h5, hv, checkField_some_err _ _ hrange, ebind_err]

/-- Counterexample for C3 as stated: a config whose `exaggeration` is the
out-of-range value 3 is rejected, but the error message does not name the
offending value — `"3"` does not occur in it (the message names only the
field and the bounds). -/
theorem C3_counterexample :
    _validate_config ["es"] { exaggeration := some 3 } =
      .error "Exaggeration must be between 0.25 and 2.0"
    ∧ ¬ ("3".toList <:+: "Exaggeration must be between 0.25 and 2.0".toList) := by
  constructor
  · simp only [_validate_config, ebind_ok]
    rw [checkField_some_err _ _ (by norm_num), ebind_err]
  · decide

/-- Witness for C3: all six numeric fields supplied exactly at a bound are
accepted and kept, and absent `language_id` defaults to `"es"`. -/
theorem C3_config_defaults_and_ranges_witness :
    _validate_config ["es"]
      { exaggeration := some 2, temperature := some (1/20), cfg_weight := some 1,
        repetition_penalty := some 1, min_p := some 0, top_p := some 1 } =
    .ok { language_id := "es", exaggeration := 2, temperature := 1/20,
          cfg_weight := 1, repetition_penalty := 1, min_p := 0, top_p := 1 } :=
  (C3_config_defaults_and_ranges ["es"]
      { exaggeration := some 2, temperature := some (1/20), cfg_weight := some 1,
        repetition_penalty := some 1, min_p := some 0, top_p := some 1 }).1
    (fun l hl => by cases hl)
    (fun v hv => by cases hv; constructor <;> norm_num)
    (fun v hv => by cases hv; constructor <;> norm_num)
    (fun v hv => by cases hv; constructor <;> norm_num)
    (fun v hv => by cases hv; constructor <;> norm_num)
    (fun v hv => by cases hv; constructor <;> norm_num)
    (fun v hv => by cases hv; constructor <;> norm_num)

/-- C5: A supplied language identifier is lower-cased and accepted iff
the lower-cased form is in the supported set: outside the set (checked on
the lower-cased form, so case-insensitively) validation fails with the
error listing the valid set; inside the set, the language check passes (the
whole validation succeeds once the numeric fields are admissible). -/
theorem C5_language_membership (supported : List String) (c : ClientConfig)
    (l : String) (hl : c.language_id = some l) :
    (pyLower l ∉ supported →
      _validate_config supported c = .error ("Unsupported language: " ++
        pyLower l ++ ". Supported languages: " ++ pyListRepr supported))
    ∧ (pyLower l ∈ supported →
       (∀ v, c.exaggeration = some v → 1/4 ≤ v ∧ v ≤ 2) →
       (∀ v, c.temperature = some v → 1/20 ≤ v ∧ v ≤ 5) →
       (∀ v, c.cfg_weight = some v → 0 ≤ v ∧ v ≤ 1) →
       (∀ v, c.repetition_penalty = some v → 1 ≤ v ∧ v ≤ 3) →
       (∀ v, c.min_p = some v → 0 ≤ v ∧ v ≤ 1) →
       (∀ v, c.top_p = some v → 0 ≤ v ∧ v ≤ 1) →
       ∃ r, _validate_config supported c = .ok r) := by
  constructor
  · intro hmem
    simp only [_validate_config, hl]
    rw [if_neg hmem]
    rfl
  · intro hmem h1 h2 h3 h4 h5 h6
    refine ⟨{ language_id := l, exaggeration := c.exaggeration.getD (1/2),
              temperature := c.temperature.getD (4/5),
              cfg_weight := c.cfg_weight.getD (1/2),
              repetition_penalty := c.repetition_penalty.getD 2,
              min_p := c.min_p.getD (1/20), top_p := c.top_p.getD 1 }, ?_⟩
    simp only [_validate_config, hl]
    rw [if_pos hmem]
    simp only [ebind_ok,
      checkField_ok_of _ _ h1, checkField_ok_of _ _ h2,
      checkField_ok_of _ _ h3, checkField_ok_of _ _ h4,
      checkField_ok_of _ _ h5, checkField_ok_of _ _ h6]
    rfl

/-- Witness for C5: the upper-cased identifier `"ES"` is accepted against a
set containing `"es"`, and `"fr"` is rejected with the error listing the
set. -/
theorem C5_language_membership_witness :
    (((pyLower "ES") ∉ (["es"] : List String) →
      _validate_config ["es"] { language_id := some "ES" } =
        .error ("Unsupported language: " ++ pyLower "ES" ++
          ". Supported languages: " ++ pyListRepr ["es"]))
     ∧ ((pyLower "ES") ∈ (["es"] : List String) →
        (∀ v, (none : Option ℚ) = some v → 1/4 ≤ v ∧ v ≤ 2) →
        (∀ v, (none : Option ℚ) = some v → 1/20 ≤ v ∧ v ≤ 5) →
        (∀ v, (none : Option ℚ) = some v → 0 ≤ v ∧ v ≤ 1) →
        (∀ v, (none : Option ℚ) = some v → 1 ≤ v ∧ v ≤ 3) →
        (∀ v, (none : Option ℚ) = some v → 0 ≤ v ∧ v ≤ 1) →
        (∀ v, (none : Option ℚ) = some v → 0 ≤ v ∧ v ≤ 1) →
        ∃ r, _validate_config ["es"] { language_id := some "ES" } = .ok r))
    ∧ _validate_config ["es"] { language_id := some "fr" } =
        .error "Unsupported language: fr. Supported languages: ['es']" :=
  ⟨C5_language_membership ["es"] { language_id := some "ES" } "ES" rfl,
   ((C5_language_membership ["es"] { language_id := some "fr" } "fr" rfl).1
     (by decide)).trans (by decide)⟩

theorem ethrow_bind {ε α β : Type} (e : ε) (f : α → Except ε β) :
    ((throw e : Except ε α) >>= f) = .error e := rfl

theorem ethrow_eq {ε α : Type} (e : ε) : (throw e : Except ε α) = .error e := rfl

theorem epure_bind {ε α β : Type} (a : α) (f : α → Except ε β) :
    ((pure a : Except ε α) >>= f) = f a := rfl

theorem epure_eq {ε α : Type} (a : α) : (pure a : Except ε α) = .ok a := rfl

theorem tryBlock_cases (supported : List String) (w : TTSWorld) (d : RequestData) :
    (∃ lang audio, tryBlock supported w d = .ok
        ({ audio := some audio, status := "success",
           message := "Generated audio for '" ++ lang ++ "' text",
           sample_rate := some w.sampleRate, language := some lang }, false)) ∨
    (∃ m ps, tryBlock supported w d = .error (m, ps, ps)) := by
  cases hv : validateText d.text with
  | error m =>
      right
      exact ⟨m, false, by simp [tryBlock, hv, Except.mapError, ebind_err]⟩
  | ok tv =>
      cases hc : _validate_config supported d.config with
      | error m =>
          right
          exact ⟨m, false,
            by simp [tryBlock, hv, hc, Except.mapError, ebind_ok, ebind_err]⟩
      | ok cfg =>
          obtain ⟨t1, t2⟩ := tv
          simp only [tryBlock, hv, hc, Except.mapError, ebind_ok]
          generalize (match d.reference_audio with
            | some s => !s.isEmpty
            | none => false) = hasRef
          cases hasRef <;> cases hd : w.decodeOk <;>
            cases hm : w.modelResult <;> cases he : w.encodeResult <;>
            cases hu : w.unlinkOk <;>
            simp [ethrow_bind, ethrow_eq, epure_bind, epure_eq, ebind_ok,
              ebind_err]

/-- C1: (amended) The temporary reference-audio artifact is removed on
every exit path of `process_tts_request` — success, validation failure, or
model failure — *provided the removal operation itself succeeds*.  A removal
failure, however, is not tolerated by this code path (see the
counterexample): the `os.unlink` calls of lines 177 and 196 are unguarded,
so a failing removal escapes as an exception and the artifact remains. -/
theorem C1_artifact_removed (supported : List String) (w : TTSWorld)
    (d : RequestData) (h : w.unlinkOk = true) :
    (process_tts_request supported w d).2 = false := by
  rcases tryBlock_cases supported w d with ⟨lang, audio, heq⟩ | ⟨m, ps, heq⟩
  · simp [process_tts_request, heq]
  · cases ps <;> simp [process_tts_request, heq, exceptHandler, h]

/-- Witness for C1: a request with a reference-audio payload, in a world
where removal succeeds, leaves no artifact behind. -/
theorem C1_artifact_removed_witness :
    (process_tts_request ["es"] {}
      { text := some "hola", reference_audio := some "Qg==" }).2 = false :=
  C1_artifact_removed ["es"] {}
    { text := some "hola", reference_audio := some "Qg==" } rfl

/-- Counterexample for C1 as stated: with a reference-audio payload, a model
failure and a failing `os.unlink`, the request ends with the uncaught unlink
`OSError` escaping `process_tts_request` (second component `true`: the
artifact is *not* removed, and the removal failure is *not* tolerated as a
non-fatal warning — it replaces the `tts_response` outcome entirely). -/
theorem C1_counterexample :
    process_tts_request ["es"]
      { modelResult := .error "model failed", unlinkOk := false,
        unlinkErrMsg := "Permission denied", sampleRate := 24000 }
      { text := some "hola", reference_audio := some "QUJD" } =
    (.exn "Permission denied", true) := by decide

/-- C2: (amended) Provided the removal of the reference artifact does not
itself fail (`unlinkOk`, which covers every request without a reference
payload as well), `process_tts_request` never lets an exception escape: it
returns a `tts_response` whose data is either the full success shape or
exactly the error shape `{audio: null, status: "error", message}` — the two
shapes being mutually exclusive — and a model failure's message is carried
verbatim into the error shape. -/
theorem C2_error_boundary (supported : List String) (w : TTSWorld)
    (d : RequestData) (hu : w.unlinkOk = true) :
    (∃ r, (process_tts_request supported w d).1 = .ok r ∧
      ((r.status = "success" ∧ r.audio.isSome = true ∧
          r.sample_rate = some w.sampleRate ∧ r.language.isSome = true) ∨
        r = errorData r.message) ∧
      ¬ (r.status = "success" ∧ r = errorData r.message))
    ∧ (∀ tv cfg m, validateText d.text = .ok tv →
        _validate_config supported d.config = .ok cfg →
        w.decodeOk = true → w.modelResult = .error m →
        process_tts_request supported w d = (.ok (errorData m), false)) := by
  constructor
  · rcases tryBlock_cases supported w d with ⟨lang, audio, heq⟩ | ⟨m, ps, heq⟩
    · refine ⟨{ audio := some audio, status := "success",
                message := "Generated audio for '" ++ lang ++ "' text",
                sample_rate := some w.sampleRate, language := some lang },
               by simp [process_tts_request, heq], Or.inl (by simp), ?_⟩
      rintro ⟨hs, hr⟩
      have := congrArg TTSResponseData.status hr
      simp [errorData] at this
    · refine ⟨errorData m, ?_, Or.inr rfl, ?_⟩
      · cases ps <;> simp [process_tts_request, heq, exceptHandler, hu]
      · rintro ⟨hs, -⟩
        simp [errorData] at hs
  · intro tv cfg m hv hc hd hm
    obtain ⟨t1, t2⟩ := tv
    rcases href : d.reference_audio with _ | s
    · simp [process_tts_request, tryBlock, hv, hc, hd, hm, href, hu,
        Except.mapError, ebind_ok, ebind_err, ethrow_bind, ethrow_eq,
        epure_bind, epure_eq, exceptHandler, errorData]
    · cases hse : s.isEmpty <;>
        simp [process_tts_request, tryBlock, hv, hc, hd, hm, href, hse, hu,
          Except.mapError, ebind_ok, ebind_err, ethrow_bind, ethrow_eq,
          epure_bind, epure_eq, exceptHandler, errorData]

/-- Witness for C2: a model failure with no reference audio yields exactly
the error-shaped `tts_response` carrying the model's message. -/
theorem C2_error_boundary_witness :
    process_tts_request ["es"] { modelResult := .error "boom" }
      { text := some "hola" } = (.ok (errorData "boom"), false) :=
  (C2_error_boundary ["es"] { modelResult := .error "boom" }
      { text := some "hola" } rfl).2
    ("hola", false)
    { language_id := "es", exaggeration := 1/2, temperature := 4/5,
      cfg_weight := 1/2, repetition_penalty := 2, min_p := 1/20, top_p := 1 }
    "boom" (by decide) rfl rfl rfl

/-- Counterexample for C2 as stated: an exception raised during processing
(the unlink `OSError` of the success-path cleanup at line 177) is *not*
converted to a `tts_response` error shape — it propagates out of
`process_tts_request` (re-raised by the handler's own unguarded cleanup at
line 196). -/
theorem C2_counterexample :
    process_tts_request ["es"]
      { encodeResult := .ok "QUJDRA==", unlinkOk := false,
        unlinkErrMsg := "unlink: permission denied", sampleRate := 1 }
      { text := some "adios", reference_audio := some "QQ==" } =
    (.exn "unlink: permission denied", true) := by decide

/-- C6: On every connection the first message written is the
`server_info` message — carrying the banner, the (non-empty)
supported-language list, the default language `"es"` and the device
identifier — sent unconditionally before any client frame is processed, and
no later response of the session is ever a `server_info` (it is sent exactly
once). -/
theorem C6_server_info_first (device : String) (msgs : List Incoming) :
    handle_client SUPPORTED_LANGUAGES device msgs =
      OutMsg.serverInfo "Chatterbox TTS WebSocket Server" SUPPORTED_LANGUAGES
        "es" device :: msgs.map (handleMessage SUPPORTED_LANGUAGES)
    ∧ SUPPORTED_LANGUAGES ≠ []
    ∧ ∀ o ∈ msgs.map (handleMessage SUPPORTED_LANGUAGES),
        ∀ a b c dd, o ≠ OutMsg.serverInfo a b c dd := by
  refine ⟨rfl, by decide, ?_⟩
  intro o ho a b c dd
  simp only [List.mem_map] at ho
  obtain ⟨inc, -, rfl⟩ := ho
  cases inc with
  | malformed => simp [handleMessage]
  | nonDict ty => simp [handleMessage]
  | envelope typ d w =>
      simp only [handleMessage]
      split_ifs
      · rcases hp : process_tts_request SUPPORTED_LANGUAGES w d with ⟨pr, pe⟩
        cases pr <;> simp
      · simp
      · simp

/-- Witness for C6: a session receiving one malformed frame still opens with
the `server_info` message and never repeats it. -/
theorem C6_server_info_first_witness :
    handle_client SUPPORTED_LANGUAGES "cpu" [Incoming.malformed] =
      OutMsg.serverInfo "Chatterbox TTS WebSocket Server" SUPPORTED_LANGUAGES
        "es" "cpu" :: [Incoming.malformed].map (handleMessage SUPPORTED_LANGUAGES)
    ∧ SUPPORTED_LANGUAGES ≠ []
    ∧ ∀ o ∈ [Incoming.malformed].map (handleMessage SUPPORTED_LANGUAGES),
        ∀ a b c dd, o ≠ OutMsg.serverInfo a b c dd :=
  C6_server_info_first "cpu" [Incoming.malformed]

/-- C7: Per-message failures are answered without closing the session:
every received frame gets exactly one response (the loop serves all
subsequent frames regardless of earlier failures); malformed JSON is
answered with `"Invalid JSON format"`; an unrecognized type `t` with exactly
`{"type": "error", "data": {"message": "Unknown message type: t"}}`; and an
exception escaping the dispatch of a `tts_request` with an error message
carrying the exception's text. -/
theorem C7_session_survives_errors (supported : List String) (device : String) :
    (∀ msgs : List Incoming,
      (handle_client supported device msgs).length = msgs.length + 1)
    ∧ handleMessage supported .malformed = .errorMsg "Invalid JSON format"
    ∧ (∀ (t : String) (d : RequestData) (w : TTSWorld),
        t ≠ "tts_request" → t ≠ "ping" →
        handleMessage supported (.envelope (.strTag t) d w) =
          .errorMsg ("Unknown message type: " ++ t))
    ∧ (∀ (d : RequestData) (w : TTSWorld) (m : String) (ex : Bool),
        process_tts_request supported w d = (.exn m, ex) →
        handleMessage supported (.envelope (.strTag "tts_request") d w) =
          .errorMsg ("Internal server error: " ++ m))
    ∧ (∀ (pre : List Incoming) (inc : Incoming) (suf : List Incoming),
        handle_client supported device (pre ++ inc :: suf) =
          handle_client supported device pre ++
            handleMessage supported inc :: suf.map (handleMessage supported)) := by
  refine ⟨?_, rfl, ?_, ?_, ?_⟩
  · intro msgs
    simp [handle_client]
  · intro t d w h1 h2
    simp [handleMessage, typeDisplay, h1, h2]
  · intro d w m ex hp
    simp [handleMessage, hp]
  · intro pre inc suf
    simp [handle_client]

/-- Witness for C7: an unknown message type `"foo"` is answered with the
exact unknown-type error shape. -/
theorem C7_session_survives_errors_witness :
    handleMessage ["es"] (.envelope (.strTag "foo") {} {}) =
      .errorMsg ("Unknown message type: " ++ "foo") :=
  (C7_session_survives_errors ["es"] "cpu").2.2.1 "foo" {} {}
    (by decide) (by decide)

/-- C10: A frame whose payload is valid JSON but not a JSON object is
not answered with `"Invalid JSON format"`: the `AttributeError` raised at
`data.get("type")` is caught by the generic per-message handler and answered
with a message beginning `"Internal server error: "`, and the session keeps
serving the following frames. -/
theorem C10_nonobject_json (supported : List String) (device : String)
    (ty : String) (pre suf : List Incoming) :
    handle_client supported device (pre ++ .nonDict ty :: suf) =
      handle_client supported device pre ++
        OutMsg.errorMsg ("Internal server error: " ++ attrErrMsg ty) ::
          suf.map (handleMessage supported)
    ∧ OutMsg.errorMsg ("Internal server error: " ++ attrErrMsg ty) ≠
        OutMsg.errorMsg "Invalid JSON format"
    ∧ ∃ rest, "Internal server error: " ++ attrErrMsg ty =
        "Internal server error: " ++ rest := by
  refine ⟨by simp [handle_client, handleMessage], ?_, attrErrMsg ty, rfl⟩
  intro h
  have h2 := congrArg String.length (OutMsg.errorMsg.inj h)
  rw [String.length_append] at h2
  have e1 : ("Internal server error: ").length = 23 := by decide
  have e2 : ("Invalid JSON format").length = 19 := by decide
  omega

theorem popSegment_fst (tasks : List (List (List AtomicOp))) (i₀ : ℕ)
    (h : ∀ t ∈ tasks, ∀ seg ∈ t, seg ∈ sessionSegments) :
    (popSegment tasks i₀).1 = [] ∨ (popSegment tasks i₀).1 ∈ sessionSegments := by
  unfold popSegment
  cases hg : tasks.get? i₀ with
  | none => simp
  | some t =>
      cases t with
      | nil => simp
      | cons s rest =>
          right
          exact h _ (List.get?_mem hg) s (by simp)

theorem popSegment_snd_inv (tasks : List (List (List AtomicOp))) (i₀ : ℕ)
    (h : ∀ t ∈ tasks, ∀ seg ∈ t, seg ∈ sessionSegments) :
    ∀ t ∈ (popSegment tasks i₀).2, ∀ seg ∈ t, seg ∈ sessionSegments := by
  unfold popSegment
  cases hg : tasks.get? i₀ with
  | none => simpa using h
  | some t =>
      cases t with
      | nil => simpa using h
      | cons s rest =>
          intro t' ht' seg hseg
          rcases List.mem_or_eq_of_mem_set ht' with h1 | rfl
          · exact h _ h1 _ hseg
          · exact h _ (List.get?_mem hg) _ (List.mem_cons_of_mem _ hseg)

theorem dispatch_split (i₀ i : ℕ) (tr₁ c : List (ℕ × AtomicOp))
    (h : ttsDispatchOps.map (fun op => (i₀, op)) =
      tr₁ ++ (i, AtomicOp.modelGenerate) :: c) :
    i = i₀ ∧ c = [(i₀, AtomicOp.encodeAudio), (i₀, AtomicOp.buildResponse),
                  (i₀, AtomicOp.sendResponse)] := by
  rcases tr₁ with _ | ⟨a0, _ | ⟨a1, _ | ⟨a2, _ | ⟨a3, _ | ⟨a4, _ |
    ⟨a5, _ | ⟨a6, tr₁⟩⟩⟩⟩⟩⟩⟩ <;>
    simp_all [ttsDispatchOps]
  obtain ⟨-, -, -, rfl, rfl⟩ := h
  rfl

/-- Counterexample for C9 as stated: in the session's suspension-delimited
segment decomposition, the model call is *not* an awaited step of its own
(which an offload-to-worker-and-await pattern would make it): it sits inside
the single uninterrupted dispatch segment together with parsing, validation,
encoding and the response construction. -/
theorem C9_counterexample :
    AtomicOp.modelGenerate ∈ ttsDispatchOps ∧
    ttsDispatchOps ∈ sessionSegments ∧
    ttsDispatchOps ≠ [AtomicOp.modelGenerate] ∧
    ¬ (∀ seg ∈ sessionSegments, AtomicOp.modelGenerate ∈ seg →
        seg = [AtomicOp.modelGenerate]) := by decide

/-- C9: (amended) The blocking model invocation runs inline in the
session task: `process_tts_request` contains no suspension point, so in any
cooperative schedule of any number of session tasks, once a session performs
`modelGenerate` no other task runs an operation until that session has
encoded the audio, built the response and issued the send — a long model
call does block every other connection. -/
theorem C9_model_call_blocks_sessions :
    ∀ (sched : List ℕ) (tasks : List (List (List AtomicOp))),
      (∀ t ∈ tasks, ∀ seg ∈ t, seg ∈ sessionSegments) →
      ∀ i tr₁ tr₂,
        runSchedule tasks sched = tr₁ ++ (i, AtomicOp.modelGenerate) :: tr₂ →
        ∃ tr₃, tr₂ = (i, AtomicOp.encodeAudio) :: (i, AtomicOp.buildResponse) ::
          (i, AtomicOp.sendResponse) :: tr₃ := by
  intro sched
  induction sched with
  | nil =>
      intro tasks h i tr₁ tr₂ heq
      rw [runSchedule] at heq
      simp at heq
  | cons i₀ sched ih =>
      intro tasks h i tr₁ tr₂ heq
      simp only [runSchedule] at heq
      have hinv := popSegment_snd_inv tasks i₀ h
      rcases popSegment_fst tasks i₀ h with hseg | hseg
      · rw [hseg] at heq
        simp only [List.map_nil, List.nil_append] at heq
        exact ih _ hinv i tr₁ tr₂ heq
      · have h2 : (popSegment tasks i₀).1 = [AtomicOp.sendServerInfo] ∨
            (popSegment tasks i₀).1 = ttsDispatchOps := by
          simpa [sessionSegments] using hseg
        rcases h2 with hs1 | hs2
        · rw [hs1] at heq
          simp only [List.map_cons, List.map_nil, List.singleton_append] at heq
          rcases tr₁ with _ | ⟨a0, tr₁⟩
          · rw [List.nil_append] at heq
            injection heq with h1 h2
            have h3 := congrArg Prod.snd h1
            simp at h3
          · rw [List.cons_append] at heq
            injection heq with h1 h2
            exact ih _ hinv i tr₁ tr₂ h2
        · rw [hs2] at heq
          rcases List.append_eq_append_iff.mp heq with ⟨a', ha1, ha2⟩ | ⟨c', hc1, hc2⟩
          · exact ih _ hinv i a' tr₂ ha2
          · rcases c' with _ | ⟨e, c''⟩
            · refine ih _ hinv i [] tr₂ ?_
              rw [List.nil_append]
              simpa using hc2.symm
            · rw [List.cons_append] at hc2
              injection hc2 with h1 h2
              rw [← h1] at hc1
              obtain ⟨hi, hcc⟩ := dispatch_split i₀ i tr₁ c'' hc1
              subst hi
              exact ⟨runSchedule (popSegment tasks i).2 sched,
                by rw [h2, hcc]; simp⟩

/-- Witness for C9: two scheduler turns of a single session task produce a
trace in which the model call is immediately followed by the same session's
encode, build and send steps. -/
theorem C9_model_call_blocks_sessions_witness :
    ∃ tr₃, ([(0, AtomicOp.encodeAudio), (0, AtomicOp.buildResponse),
             (0, AtomicOp.sendResponse)] : List (ℕ × AtomicOp)) =
      (0, AtomicOp.encodeAudio) :: (0, AtomicOp.buildResponse) ::
        (0, AtomicOp.sendResponse) :: tr₃ :=
  C9_model_call_blocks_sessions [0, 0] [sessionSegments] (by decide) 0
    [(0, .sendServerInfo), (0, .recvMessage), (0, .parseJson),
     (0, .validateRequest)]
    [(0, .encodeAudio), (0, .buildResponse), (0, .sendResponse)]
    (by decide)
